import Mathlib

/-!
Verification of the pacing/forecast engine of the `ppcdash` marketing
dashboard (`src/static/js/main.js`, with the dashboard fetch error paths of
`src/static/js/main.js` and `src/static/js/dashboard.js`).

JavaScript numbers are modelled by `JsNum`: an exact rational together with
the three non-finite values `NaN`, `Infinity` and `-Infinity`.  Arithmetic
and comparisons follow the IEEE/JS rules for these special values (the
negative zero of IEEE is identified with zero, and finite arithmetic is
exact rational arithmetic).  Calendar quantities (`currentDayOfMonth`,
`totalDaysInMonth`, `remainingDays`), produced in the source by `Date`
methods, are modelled as natural numbers.
-/

/-- Model of a JavaScript number: `NaN`, `±Infinity`, or a finite value
(modelled as an exact rational). -/
inductive JsNum where
  | nan : JsNum
  | posInf : JsNum
  | negInf : JsNum
  | fin : ℚ → JsNum
deriving DecidableEq, Repr

namespace JsNum

/-- JS unary minus. -/
def neg : JsNum → JsNum
  | nan => nan
  | posInf => negInf
  | negInf => posInf
  | fin a => fin (-a)

/-- JS addition. -/
def add : JsNum → JsNum → JsNum
  | nan, _ => nan
  | _, nan => nan
  | posInf, negInf => nan
  | negInf, posInf => nan
  | posInf, _ => posInf
  | _, posInf => posInf
  | negInf, _ => negInf
  | _, negInf => negInf
  | fin a, fin b => fin (a + b)

/-- JS multiplication. -/
def mul : JsNum → JsNum → JsNum
  | nan, _ => nan
  | _, nan => nan
  | posInf, posInf => posInf
  | posInf, negInf => negInf
  | negInf, posInf => negInf
  | negInf, negInf => posInf
  | posInf, fin b => if b = 0 then nan else if 0 < b then posInf else negInf
  | fin a, posInf => if a = 0 then nan else if 0 < a then posInf else negInf
  | negInf, fin b => if b = 0 then nan else if 0 < b then negInf else posInf
  | fin a, negInf => if a = 0 then nan else if 0 < a then negInf else posInf
  | fin a, fin b => fin (a * b)

/-- JS division (division by (positive) zero yields a signed infinity or
`NaN`, as in IEEE arithmetic with a positive zero divisor). -/
def div : JsNum → JsNum → JsNum
  | nan, _ => nan
  | _, nan => nan
  | posInf, posInf => nan
  | posInf, negInf => nan
  | negInf, posInf => nan
  | negInf, negInf => nan
  | posInf, fin b => if b < 0 then negInf else posInf
  | negInf, fin b => if b < 0 then posInf else negInf
  | fin _, posInf => fin 0
  | fin _, negInf => fin 0
  | fin a, fin b =>
      if b = 0 then (if a = 0 then nan else if 0 < a then posInf else negInf)
      else fin (a / b)

instance : Neg JsNum := ⟨neg⟩
instance : Add JsNum := ⟨add⟩
instance : Mul JsNum := ⟨mul⟩
instance : Div JsNum := ⟨div⟩

/-- JS subtraction (`a - b` behaves as `a + (-b)` on all special values). -/
def sub (a b : JsNum) : JsNum := a + (-b)

instance : Sub JsNum := ⟨sub⟩

instance (n : ℕ) : OfNat JsNum n := ⟨fin (OfNat.ofNat n)⟩

instance : OfScientific JsNum :=
  ⟨fun m e b => fin (OfScientific.ofScientific m e b)⟩

/-- JS `<` as a boolean (any comparison involving `NaN` is false). -/
def ltb : JsNum → JsNum → Bool
  | nan, _ => false
  | _, nan => false
  | posInf, _ => false
  | _, posInf => true
  | negInf, negInf => false
  | negInf, _ => true
  | fin _, negInf => false
  | fin a, fin b => decide (a < b)

/-- JS `<=` as a boolean (any comparison involving `NaN` is false). -/
def leb : JsNum → JsNum → Bool
  | nan, _ => false
  | _, nan => false
  | _, posInf => true
  | posInf, _ => false
  | negInf, _ => true
  | fin _, negInf => false
  | fin a, fin b => decide (a ≤ b)

/-- JS `>`. -/
def gtb (a b : JsNum) : Bool := ltb b a

/-- JS `>=`. -/
def geb (a b : JsNum) : Bool := leb b a

/-- JS `Math.max` (propagates `NaN`). -/
def max (a b : JsNum) : JsNum :=
  if a = nan ∨ b = nan then nan else if ltb a b then b else a

/-- JS `Math.abs`. -/
def abs : JsNum → JsNum
  | nan => nan
  | posInf => posInf
  | negInf => posInf
  | fin a => fin |a|

/-- Rounding of a rational in the style of JS `Math.round`: nearest integer,
ties toward positive infinity. -/
def roundQ (q : ℚ) : ℤ := ⌊q + 1 / 2⌋

/-- JS `Math.round`. -/
def round : JsNum → JsNum
  | nan => nan
  | posInf => posInf
  | negInf => negInf
  | fin a => fin (roundQ a)

/-- JS `x || 0` for a number `x`: the falsy numbers `NaN` and `0` become
`0`, every other number is returned unchanged. -/
def orZero : JsNum → JsNum
  | nan => fin 0
  | posInf => posInf
  | negInf => negInf
  | fin a => if a = 0 then fin 0 else fin a

/-- JS `(x).toFixed(0)` restricted to what the insights need: the special
values print as `NaN` and `±Infinity`, a finite value prints its nearest
integer (ties toward positive infinity). -/
def toFixed0 : JsNum → String
  | nan => "NaN"
  | posInf => "Infinity"
  | negInf => "-Infinity"
  | fin a => toString (roundQ a)

/-- The finite JS numbers. -/
def IsFinite : JsNum → Prop
  | fin _ => True
  | _ => False

instance : DecidablePred IsFinite := fun x => by
  cases x <;> simp [IsFinite] <;> infer_instance

@[simp] theorem neg_fin (a : ℚ) : -(fin a) = fin (-a) := rfl

@[simp] theorem fin_add_fin (a b : ℚ) : fin a + fin b = fin (a + b) := rfl

@[simp] theorem fin_sub_fin (a b : ℚ) : fin a - fin b = fin (a - b) := by
  show add (fin a) (neg (fin b)) = fin (a - b)
  simp [add, neg, sub_eq_add_neg]

@[simp] theorem fin_mul_fin (a b : ℚ) : fin a * fin b = fin (a * b) := rfl

theorem fin_div_fin (a b : ℚ) (hb : b ≠ 0) : fin a / fin b = fin (a / b) := by
  show div (fin a) (fin b) = fin (a / b)
  simp [div, hb]

theorem fin_div_zero (a : ℚ) :
    fin a / fin 0 =
      (if a = 0 then nan else if 0 < a then posInf else negInf) := by
  show div (fin a) (fin 0) = _
  simp [div]

@[simp] theorem ltb_fin_fin (a b : ℚ) : ltb (fin a) (fin b) = decide (a < b) := rfl

@[simp] theorem leb_fin_fin (a b : ℚ) : leb (fin a) (fin b) = decide (a ≤ b) := rfl

@[simp] theorem gtb_fin_fin (a b : ℚ) : gtb (fin a) (fin b) = decide (b < a) := rfl

@[simp] theorem geb_fin_fin (a b : ℚ) : geb (fin a) (fin b) = decide (b ≤ a) := rfl

@[simp] theorem ofNat_eq_fin (n : ℕ) :
    (OfNat.ofNat n : JsNum) = fin (OfNat.ofNat n) := rfl

@[simp] theorem ofScientific_eq_fin (m : ℕ) (b : Bool) (e : ℕ) :
    (OfScientific.ofScientific m b e : JsNum) =
      fin (OfScientific.ofScientific m b e) := rfl

@[simp] theorem orZero_fin (a : ℚ) : orZero (fin a) = fin a := by
  by_cases h : a = 0 <;> simp [orZero, h]

@[simp] theorem max_fin_fin (a b : ℚ) :
    max (fin a) (fin b) = fin (Max.max a b) := by
  by_cases h : a < b
  · simp [max, h, max_eq_right h.le]
  · simp [max, h, max_eq_left (not_lt.mp h)]

@[simp] theorem ltb_nan_left (x : JsNum) : ltb nan x = false := by
  cases x <;> rfl

@[simp] theorem ltb_nan_right (x : JsNum) : ltb x nan = false := by
  cases x <;> rfl

@[simp] theorem ltb_posInf_left (x : JsNum) : ltb posInf x = false := by
  cases x <;> rfl

@[simp] theorem ltb_negInf_fin (b : ℚ) : ltb negInf (fin b) = true := rfl

@[simp] theorem round_fin (a : ℚ) : round (fin a) = fin (roundQ a) := rfl

@[simp] theorem isFinite_fin (a : ℚ) : IsFinite (fin a) := trivial

end JsNum

open JsNum

/-- The four regions configured in the forecasting page
(`['CA','AZ','GA','TX']` in the source). -/
inductive Region where
  | CA | AZ | GA | TX
deriving DecidableEq, Repr

/-- The short code of a region, as used in the insight message templates. -/
def Region.code : Region → String
  | .CA => "CA"
  | .AZ => "AZ"
  | .GA => "GA"
  | .TX => "TX"

/-- The four tracked metrics. -/
inductive Metric where
  | spend | leads | cases | retainers
deriving DecidableEq, Repr

/-- Per-region, per-metric target configuration
(`{ weekdayDaily, weekendDaily, monthlyTotal }` in the source). -/
structure MetricTarget where
  weekdayDaily : JsNum
  weekendDaily : JsNum
  monthlyTotal : JsNum
deriving DecidableEq, Repr

/-- Per-region actual cumulative figures (`{ spend, leads, cases,
retainers }` in the source). -/
structure ActualPerf where
  spend : JsNum
  leads : JsNum
  cases : JsNum
  retainers : JsNum
deriving DecidableEq, Repr

/-- Dynamic access `actual[metric]`, mirroring `this.actualData[state]?.[metric]`. -/
def ActualPerf.get (a : ActualPerf) : Metric → JsNum
  | .spend => a.spend
  | .leads => a.leads
  | .cases => a.cases
  | .retainers => a.retainers

/-- The two conversion-rate percentages. -/
structure ConvRates where
  leadToCase : JsNum
  leadToRetainer : JsNum
deriving DecidableEq, Repr

/-- The pacing status classifier `getPacingStatus(actual, expected)` of
`main.js` (lines 1080-1086), verbatim. -/
def getPacingStatus (actual expected : JsNum) : String :=
  let diff := actual - expected
  if diff.geb 10 then "Ahead of target"
  else if diff.geb 0 then "On track"
  else if diff.geb (-10) then "Slightly behind"
  else "Behind target"

/-- Normal form of `getPacingStatus` on finite inputs. -/
theorem getPacingStatus_fin (a e : ℚ) :
    getPacingStatus (fin a) (fin e) =
      if 10 ≤ a - e then "Ahead of target"
      else if 0 ≤ a - e then "On track"
      else if -10 ≤ a - e then "Slightly behind"
      else "Behind target" := by
  have h10 : (10 : JsNum) = fin 10 := rfl
  have h0 : (0 : JsNum) = fin 0 := rfl
  have hn : (-10 : JsNum) = fin (-10) := rfl
  simp only [getPacingStatus, h10, h0, hn, neg_fin, fin_sub_fin, geb_fin_fin,
    decide_eq_true_eq]

/-- C1: for every pair of (finite) numbers, `getPacingStatus` is determined
solely by `diff = actual − expected` according to the §4.1 table:
`diff ≥ 10` gives "Ahead of target", `0 ≤ diff < 10` gives "On track",
`−10 ≤ diff < 0` gives "Slightly behind", `diff < −10` gives
"Behind target"; in particular `(50,40)` is ahead, `(35,40)` slightly
behind and `(20,40)` behind. -/
theorem C1_pacing_status_table (a e : ℚ) :
    (10 ≤ a - e → getPacingStatus (fin a) (fin e) = "Ahead of target") ∧
    (0 ≤ a - e → a - e < 10 → getPacingStatus (fin a) (fin e) = "On track") ∧
    (-10 ≤ a - e → a - e < 0 →
      getPacingStatus (fin a) (fin e) = "Slightly behind") ∧
    (a - e < -10 → getPacingStatus (fin a) (fin e) = "Behind target") := by
  refine ⟨fun h => ?_, fun h0 h10 => ?_, fun hm h0 => ?_, fun h => ?_⟩ <;>
    rw [getPacingStatus_fin] <;> split_ifs <;>
    first | rfl | (exfalso; linarith)

/-- Witness for C1 at the three concrete example points of the claim. -/
theorem C1_pacing_status_table_witness :
    getPacingStatus (fin 50) (fin 40) = "Ahead of target" ∧
    getPacingStatus (fin 35) (fin 40) = "Slightly behind" ∧
    getPacingStatus (fin 20) (fin 40) = "Behind target" :=
  ⟨(C1_pacing_status_table 50 40).1 (by norm_num),
   (C1_pacing_status_table 35 40).2.2.1 (by norm_num) (by norm_num),
   (C1_pacing_status_table 20 40).2.2.2 (by norm_num)⟩

/-- The region iteration order `['CA','AZ','GA','TX']` used by the source
(both in `reduce` over `Object.values` and in `forEach` loops). -/
def regionList : List Region := [.CA, .AZ, .GA, .TX]

/-- State of the forecasting Alpine component (`forecastApp` in `main.js`):
the inputs of the pacing engine (targets, conversion rates, actuals,
calendar position) together with every field written by
`calculatePacing`/`generateInsights`.  Calendar fields are the integers
produced by `Date` methods in `init()`. -/
structure AppState where
  settings : Region → Metric → MetricTarget
  conversionRates : ConvRates
  actualData : Region → ActualPerf
  dataSource : String
  currentDayOfMonth : ℕ
  totalDaysInMonth : ℕ
  remainingDays : ℕ
  totalTarget : Metric → JsNum
  totalActual : Metric → JsNum
  progress : Metric → JsNum
  pacingStatus : Metric → String
  dailyAverage : Metric → JsNum
  requiredDaily : Metric → JsNum
  projected : Metric → JsNum
  insights : List String

/-- The four total-target reductions of `calculatePacing` (lines 1008-1015):
`Object.values(this.settings).reduce((sum, state) => sum +
(state[m]?.monthlyTotal || 0), 0)`. -/
def sumTargets (settings : Region → Metric → MetricTarget) (m : Metric) : JsNum :=
  regionList.foldl (fun sum r => sum + JsNum.orZero (settings r m).monthlyTotal) 0

/-- The four total-actual reductions of `calculatePacing` (lines 1017-1024). -/
def sumActuals (actual : Region → ActualPerf) (m : Metric) : JsNum :=
  regionList.foldl (fun sum r => sum + JsNum.orZero ((actual r).get m)) 0

/-- Source `getStateTarget` (line 1122): `this.settings[state]?.[metric]?.monthlyTotal || 0`. -/
def getStateTarget (s : AppState) (r : Region) (m : Metric) : JsNum :=
  JsNum.orZero (s.settings r m).monthlyTotal

/-- Source `getStateActual` (line 1126): `this.actualData[state]?.[metric] || 0`. -/
def getStateActual (s : AppState) (r : Region) (m : Metric) : JsNum :=
  JsNum.orZero ((s.actualData r).get m)

/-- Source `getStateProgress` (line 1130). -/
def getStateProgress (s : AppState) (r : Region) (m : Metric) : JsNum :=
  let target := getStateTarget s r m
  let actual := getStateActual s r m
  if target.gtb 0 then actual / target * 100 else 0

/-- Source `generateInsights` (lines 1088-1120): rebuilds `this.insights`
from the computed pacing fields.  The cost-per-lead division is unguarded,
exactly as in the source. -/
def generateInsights (s : AppState) : List String :=
  let spendIns :=
    if (s.projected .spend).gtb (s.totalTarget .spend * (1.1 : JsNum)) then
      ["Spend is projected to exceed target by more than 10%"]
    else if (s.projected .spend).ltb (s.totalTarget .spend * (0.9 : JsNum)) then
      ["Spend is projected to fall short of target by more than 10%"]
    else []
  let leadsIns :=
    if (s.dailyAverage .leads).gtb (s.requiredDaily .leads * (1.2 : JsNum)) then
      ["Lead generation is significantly outperforming targets"]
    else if (s.dailyAverage .leads).ltb (s.requiredDaily .leads * (0.8 : JsNum)) then
      ["Lead generation needs acceleration to meet targets"]
    else []
  let currentCPL := s.totalActual .spend / s.totalActual .leads
  let targetCPL := s.totalTarget .spend / s.totalTarget .leads
  let cplIns :=
    if currentCPL.ltb (targetCPL * (0.9 : JsNum)) then
      ["Cost per lead ($" ++ currentCPL.toFixed0 ++ ") is better than target"]
    else []
  let stateIns :=
    ([Region.CA, Region.AZ, Region.GA]).foldl (fun acc r =>
      let stateProgress := getStateProgress s r .spend
      let expectedProgress :=
        fin (s.currentDayOfMonth : ℚ) / fin (s.totalDaysInMonth : ℚ) * 100
      if ((stateProgress - expectedProgress).abs).gtb 15 then
        acc ++ [r.code ++ " spend pacing needs attention"]
      else acc) []
  spendIns ++ leadsIns ++ cplIns ++ stateIns

/-- The field assignments of `calculatePacing` (lines 1006-1075), before the
final `generateInsights()` call.  Note that the `requiredDaily*` fields are
assigned only under the `remainingDays > 0` guard (lines 1055-1064) and
otherwise keep their previous values. -/
def calculatePacingCore (s : AppState) : AppState :=
  let totalTarget := fun m => sumTargets s.settings m
  let totalActual := fun m => sumActuals s.actualData m
  let expectedProgress :=
    fin (s.currentDayOfMonth : ℚ) / fin (s.totalDaysInMonth : ℚ) * 100
  let progress := fun m =>
    if (totalTarget m).gtb 0 then totalActual m / totalTarget m * 100 else 0
  let pacingStatus := fun m => getPacingStatus (progress m) expectedProgress
  let dailyAverage := fun m =>
    if 0 < s.currentDayOfMonth then totalActual m / fin (s.currentDayOfMonth : ℚ)
    else 0
  let requiredDaily :=
    if 0 < s.remainingDays then
      fun m => JsNum.max 0 ((totalTarget m - totalActual m) / fin (s.remainingDays : ℚ))
    else s.requiredDaily
  let projected := fun m =>
    match m with
    | .spend => totalActual .spend + dailyAverage .spend * fin (s.remainingDays : ℚ)
    | m => JsNum.round (totalActual m + dailyAverage m * fin (s.remainingDays : ℚ))
  { s with
    totalTarget := totalTarget
    totalActual := totalActual
    progress := progress
    pacingStatus := pacingStatus
    dailyAverage := dailyAverage
    requiredDaily := requiredDaily
    projected := projected }

/-- Source `calculatePacing` (lines 1006-1078): the field assignments
followed by `this.generateInsights()`. -/
def calculatePacing (s : AppState) : AppState :=
  let s1 := calculatePacingCore s
  { s1 with insights := generateInsights s1 }

/-- C8: the snapshot computation is idempotent — running `calculatePacing`
twice with unchanged inputs leaves every field (totals, progress
percentages, statuses, daily averages, required daily rates, projections,
insights) identical to the result of running it once. -/
theorem C8_calculatePacing_idempotent (s : AppState) :
    calculatePacing (calculatePacing s) = calculatePacing s := by
  by_cases h : 0 < s.remainingDays <;>
    simp [calculatePacing, calculatePacingCore, h] <;> rfl

/-- The expected-progress expression `(this.currentDayOfMonth /
this.totalDaysInMonth) * 100` of `calculatePacing` (line 1027). -/
def expectedProgressOf (s : AppState) : JsNum :=
  fin (s.currentDayOfMonth : ℚ) / fin (s.totalDaysInMonth : ℚ) * 100

/-- Builder for a forecast-app state from finite targets (monthly totals),
finite actuals, and a calendar position; the computed fields carry the
initial values of the component data (zeros, empty strings and lists)
except the `requiredDaily*` fields, which are passed explicitly. -/
def mkState (tgt act : Region → Metric → ℚ) (day tot rem : ℕ)
    (req0 : Metric → JsNum) : AppState where
  settings := fun r m => ⟨fin 0, fin 0, fin (tgt r m)⟩
  conversionRates := ⟨fin 22, fin 25⟩
  actualData := fun r =>
    ⟨fin (act r .spend), fin (act r .leads), fin (act r .cases),
     fin (act r .retainers)⟩
  dataSource := "Demo Data"
  currentDayOfMonth := day
  totalDaysInMonth := tot
  remainingDays := rem
  totalTarget := fun _ => 0
  totalActual := fun _ => 0
  progress := fun _ => 0
  pacingStatus := fun _ => ""
  dailyAverage := fun _ => 0
  requiredDaily := req0
  projected := fun _ => 0
  insights := []

/-- Targets of the C2 scenario: leads monthly total 1000 (placed in CA),
everything else 0. -/
def c2Tgt : Region → Metric → ℚ
  | .CA, .leads => 1000
  | _, _ => 0

/-- Actuals of the C2 scenario: 300 leads (in CA), everything else 0. -/
def c2Act : Region → Metric → ℚ
  | .CA, .leads => 300
  | _, _ => 0

/-- The concrete scenario of C2: leads target 1000, actual leads 300, day
10 of a 30-day month, 20 days remaining. -/
def c2State : AppState :=
  mkState c2Tgt c2Act 10 30 20 (fun _ => 0)

/-- C2 counterexample: on the claimed input the code classifies leads as
"Slightly behind" (diff = 30 − 100/3 = −10/3 lies in the band
−10 ≤ diff < 0 of the §4.1 table), not "On track" as the claim states. -/
theorem C2_counterexample :
    (calculatePacing c2State).pacingStatus .leads = "Slightly behind" ∧
    (calculatePacing c2State).pacingStatus .leads ≠ "On track" := by
  have h : (calculatePacing c2State).pacingStatus .leads = "Slightly behind" := by
    simp [calculatePacing, calculatePacingCore, c2State, mkState,
      c2Tgt, c2Act, sumTargets, sumActuals, regionList, ActualPerf.get,
      getPacingStatus_fin, fin_div_fin]
    norm_num
  exact ⟨h, by rw [h]; decide⟩

/-- C2 amended: on the input with leads target 1000, actual leads 300,
currentDay = 10, totalDays = 30, remainingDays = 20, the snapshot yields
expectedProgress = 100/3 (≈ 33.3%), actualProgress = 30%, pacing status
"Slightly behind" (diff = −10/3 ≈ −3.3 falls in −10 ≤ diff < 0),
dailyAverageLeads = 30, requiredDailyLeads = 35, projectedLeads = 900. -/
theorem C2_amended_snapshot :
    expectedProgressOf c2State = fin (100 / 3) ∧
    (calculatePacing c2State).totalTarget .leads = fin 1000 ∧
    (calculatePacing c2State).totalActual .leads = fin 300 ∧
    (calculatePacing c2State).progress .leads = fin 30 ∧
    (calculatePacing c2State).pacingStatus .leads = "Slightly behind" ∧
    (calculatePacing c2State).dailyAverage .leads = fin 30 ∧
    (calculatePacing c2State).requiredDaily .leads = fin 35 ∧
    (calculatePacing c2State).projected .leads = fin 900 := by
  refine ⟨?_, ?_, ?_, ?_, ?_, ?_, ?_, ?_⟩ <;>
    · simp [calculatePacing, calculatePacingCore, expectedProgressOf,
        c2State, mkState, c2Tgt, c2Act, sumTargets, sumActuals, regionList,
        ActualPerf.get, getPacingStatus_fin, fin_div_fin, JsNum.max, roundQ]
      try norm_num [Int.floor_eq_iff]

@[simp] theorem mkState_currentDay (tgt act : Region → Metric → ℚ)
    (day tot rem : ℕ) (req0 : Metric → JsNum) :
    (mkState tgt act day tot rem req0).currentDayOfMonth = day := rfl

@[simp] theorem mkState_totalDays (tgt act : Region → Metric → ℚ)
    (day tot rem : ℕ) (req0 : Metric → JsNum) :
    (mkState tgt act day tot rem req0).totalDaysInMonth = tot := rfl

@[simp] theorem mkState_remainingDays (tgt act : Region → Metric → ℚ)
    (day tot rem : ℕ) (req0 : Metric → JsNum) :
    (mkState tgt act day tot rem req0).remainingDays = rem := rfl

@[simp] theorem mkState_requiredDaily (tgt act : Region → Metric → ℚ)
    (day tot rem : ℕ) (req0 : Metric → JsNum) :
    (mkState tgt act day tot rem req0).requiredDaily = req0 := rfl

/-- Rational total of the four regional targets for a metric (the value the
source's reduce over `Object.values(this.settings)` computes on finite
inputs). -/
def tgtTotal (tgt : Region → Metric → ℚ) (m : Metric) : ℚ :=
  tgt .CA m + tgt .AZ m + tgt .GA m + tgt .TX m

/-- Rational total of the four regional actuals for a metric. -/
def actTotal (act : Region → Metric → ℚ) (m : Metric) : ℚ :=
  act .CA m + act .AZ m + act .GA m + act .TX m

theorem sumTargets_mkState (tgt act : Region → Metric → ℚ)
    (day tot rem : ℕ) (req0 : Metric → JsNum) (m : Metric) :
    sumTargets (mkState tgt act day tot rem req0).settings m =
      fin (tgtTotal tgt m) := by
  simp [sumTargets, mkState, regionList, tgtTotal, add_assoc]

theorem sumActuals_mkState (tgt act : Region → Metric → ℚ)
    (day tot rem : ℕ) (req0 : Metric → JsNum) (m : Metric) :
    sumActuals (mkState tgt act day tot rem req0).actualData m =
      fin (actTotal act m) := by
  cases m <;>
    simp [sumActuals, mkState, regionList, actTotal, ActualPerf.get, add_assoc]

theorem calculatePacing_mk_totalTarget (tgt act : Region → Metric → ℚ)
    (day tot rem : ℕ) (req0 : Metric → JsNum) (m : Metric) :
    (calculatePacing (mkState tgt act day tot rem req0)).totalTarget m =
      fin (tgtTotal tgt m) := by
  simp [calculatePacing, calculatePacingCore, sumTargets_mkState]

theorem calculatePacing_mk_totalActual (tgt act : Region → Metric → ℚ)
    (day tot rem : ℕ) (req0 : Metric → JsNum) (m : Metric) :
    (calculatePacing (mkState tgt act day tot rem req0)).totalActual m =
      fin (actTotal act m) := by
  simp [calculatePacing, calculatePacingCore, sumActuals_mkState]

theorem calculatePacing_mk_progress (tgt act : Region → Metric → ℚ)
    (day tot rem : ℕ) (req0 : Metric → JsNum) (m : Metric) :
    (calculatePacing (mkState tgt act day tot rem req0)).progress m =
      fin (if 0 < tgtTotal tgt m then actTotal act m / tgtTotal tgt m * 100
           else 0) := by
  by_cases h : 0 < tgtTotal tgt m
  · simp [calculatePacing, calculatePacingCore, sumTargets_mkState,
      sumActuals_mkState, h, fin_div_fin _ _ (ne_of_gt h)]
  · simp [calculatePacing, calculatePacingCore, sumTargets_mkState,
      sumActuals_mkState, h]

theorem calculatePacing_mk_dailyAverage (tgt act : Region → Metric → ℚ)
    (day tot rem : ℕ) (req0 : Metric → JsNum) (m : Metric) :
    (calculatePacing (mkState tgt act day tot rem req0)).dailyAverage m =
      fin (if 0 < day then actTotal act m / (day : ℚ) else 0) := by
  by_cases h : 0 < day
  · have hne : ((day : ℚ)) ≠ 0 := by positivity
    simp [calculatePacing, calculatePacingCore, sumActuals_mkState, h,
      fin_div_fin _ _ hne]
  · simp [calculatePacing, calculatePacingCore, sumActuals_mkState, h]

theorem calculatePacing_mk_requiredDaily_pos (tgt act : Region → Metric → ℚ)
    (day tot rem : ℕ) (req0 : Metric → JsNum) (hrem : 0 < rem) (m : Metric) :
    (calculatePacing (mkState tgt act day tot rem req0)).requiredDaily m =
      fin (Max.max 0 ((tgtTotal tgt m - actTotal act m) / (rem : ℚ))) := by
  have hne : ((rem : ℚ)) ≠ 0 := by positivity
  simp [calculatePacing, calculatePacingCore, sumTargets_mkState,
    sumActuals_mkState, hrem, fin_div_fin _ _ hne]

theorem calculatePacing_mk_requiredDaily_zero (tgt act : Region → Metric → ℚ)
    (day tot : ℕ) (req0 : Metric → JsNum) (m : Metric) :
    (calculatePacing (mkState tgt act day tot 0 req0)).requiredDaily m =
      req0 m := by
  simp [calculatePacing, calculatePacingCore, mkState]

theorem calculatePacing_mk_projected_spend (tgt act : Region → Metric → ℚ)
    (day tot rem : ℕ) (req0 : Metric → JsNum) (hday : 0 < day) :
    (calculatePacing (mkState tgt act day tot rem req0)).projected .spend =
      fin (actTotal act .spend + actTotal act .spend / (day : ℚ) * rem) := by
  have hne : ((day : ℚ)) ≠ 0 := by positivity
  simp [calculatePacing, calculatePacingCore, sumActuals_mkState, hday,
    fin_div_fin _ _ hne]

theorem calculatePacing_mk_projected_rounded (tgt act : Region → Metric → ℚ)
    (day tot rem : ℕ) (req0 : Metric → JsNum) (hday : 0 < day) (m : Metric)
    (hm : m ≠ .spend) :
    (calculatePacing (mkState tgt act day tot rem req0)).projected m =
      fin (roundQ (actTotal act m + actTotal act m / (day : ℚ) * rem)) := by
  have hne : ((day : ℚ)) ≠ 0 := by positivity
  cases m
  · exact absurd rfl hm
  all_goals
    simp [calculatePacing, calculatePacingCore, sumActuals_mkState, hday,
      fin_div_fin _ _ hne]

theorem calculatePacing_mk_projected_isFinite (tgt act : Region → Metric → ℚ)
    (day tot rem : ℕ) (req0 : Metric → JsNum) (m : Metric) :
    IsFinite ((calculatePacing (mkState tgt act day tot rem req0)).projected m) := by
  by_cases hday : 0 < day
  · have hne : ((day : ℚ)) ≠ 0 := by positivity
    cases m <;>
      simp [calculatePacing, calculatePacingCore, sumActuals_mkState, hday,
        fin_div_fin _ _ hne]
  · cases m <;>
      simp [calculatePacing, calculatePacingCore, sumActuals_mkState, hday]

/-- The all-zero input function used by witnesses. -/
def zeroF : Region → Metric → ℚ := fun _ _ => 0

/-- End-of-month state for the C3 counterexample: day 30 of a 30-day month,
0 remaining days, and the `requiredDailyLeads` field currently holding 5. -/
def c3State : AppState :=
  mkState c2Tgt c2Act 30 30 0 (fun _ => fin 5)

/-- C3 counterexample: with zero remaining days the required-daily division
does not short-circuit to 0 — the guard `if (this.remainingDays > 0)` has
no else branch, so the field keeps its previous value (here 5). -/
theorem C3_counterexample :
    (calculatePacing c3State).requiredDaily .leads = fin 5 ∧
    (calculatePacing c3State).requiredDaily .leads ≠ fin 0 := by
  have h : (calculatePacing c3State).requiredDaily .leads = fin 5 :=
    calculatePacing_mk_requiredDaily_zero c2Tgt c2Act 30 30 (fun _ => fin 5) .leads
  refine ⟨h, ?_⟩
  rw [h]
  intro hc
  exact absurd (JsNum.fin.inj hc) (by norm_num)

/-- C3 amended: on every finite input, the progress divisions short-circuit
to 0 when the total target is 0, the daily-average divisions short-circuit
to 0 when the elapsed-day count is 0, and the required-daily fields are
left unchanged (not reset to 0) when the remaining-day count is 0; all four
field families stay finite (never `NaN` or `Infinity`), the required-daily
ones provided their previous values were finite. -/
theorem C3_amended_zero_divisors (tgt act : Region → Metric → ℚ)
    (day tot rem : ℕ) (req0 : Metric → JsNum) :
    (∀ m, tgtTotal tgt m = 0 →
      (calculatePacing (mkState tgt act day tot rem req0)).progress m = fin 0) ∧
    (day = 0 → ∀ m,
      (calculatePacing (mkState tgt act day tot rem req0)).dailyAverage m = fin 0) ∧
    (rem = 0 → ∀ m,
      (calculatePacing (mkState tgt act day tot rem req0)).requiredDaily m = req0 m) ∧
    (∀ m, IsFinite ((calculatePacing (mkState tgt act day tot rem req0)).progress m)) ∧
    (∀ m, IsFinite ((calculatePacing (mkState tgt act day tot rem req0)).dailyAverage m)) ∧
    ((∀ m, IsFinite (req0 m)) → ∀ m,
      IsFinite ((calculatePacing (mkState tgt act day tot rem req0)).requiredDaily m)) ∧
    (∀ m, IsFinite ((calculatePacing (mkState tgt act day tot rem req0)).projected m)) := by
  refine ⟨fun m hm => ?_, fun hd m => ?_, fun hr m => ?_, fun m => ?_,
    fun m => ?_, fun hq m => ?_, fun m => ?_⟩
  · rw [calculatePacing_mk_progress, hm]
    norm_num
  · subst hd
    rw [calculatePacing_mk_dailyAverage]
    norm_num
  · subst hr
    exact calculatePacing_mk_requiredDaily_zero tgt act day tot req0 m
  · rw [calculatePacing_mk_progress]
    exact isFinite_fin _
  · rw [calculatePacing_mk_dailyAverage]
    exact isFinite_fin _
  · rcases Nat.eq_zero_or_pos rem with hr | hr
    · subst hr
      rw [calculatePacing_mk_requiredDaily_zero]
      exact hq m
    · rw [calculatePacing_mk_requiredDaily_pos tgt act day tot rem req0 hr]
      exact isFinite_fin _
  · exact calculatePacing_mk_projected_isFinite tgt act day tot rem req0 m

/-- Witness for C3 amended at the all-zero input (all three divisor-zero
situations at once). -/
theorem C3_amended_zero_divisors_witness :
    (calculatePacing (mkState zeroF zeroF 0 0 0 (fun _ => fin 0))).progress .leads = fin 0 ∧
    (calculatePacing (mkState zeroF zeroF 0 0 0 (fun _ => fin 0))).dailyAverage .leads = fin 0 ∧
    (calculatePacing (mkState zeroF zeroF 0 0 0 (fun _ => fin 0))).requiredDaily .leads = fin 0 ∧
    IsFinite ((calculatePacing (mkState zeroF zeroF 0 0 0 (fun _ => fin 0))).projected .leads) := by
  obtain ⟨h1, h2, h3, _, _, _, h7⟩ :=
    C3_amended_zero_divisors zeroF zeroF 0 0 0 (fun _ => fin 0)
  exact ⟨h1 .leads (by norm_num [tgtTotal, zeroF]), h2 rfl .leads,
    h3 rfl .leads, h7 .leads⟩

/-- Targets of the C4 counterexample: leads monthly total 10 in CA. -/
def c4Tgt : Region → Metric → ℚ
  | .CA, .leads => 10
  | _, _ => 0

/-- Actuals of the C4 counterexample: 1 lead in CA. -/
def c4Act : Region → Metric → ℚ
  | .CA, .leads => 1
  | _, _ => 0

/-- The C4 counterexample state: 1 actual lead, day 3 of a 4-day window,
1 remaining day. -/
def c4State : AppState :=
  mkState c4Tgt c4Act 3 4 1 (fun _ => 0)

/-- C4 counterexample: the leads projection is rounded by the code
(`Math.round` on line 1069), so at actual leads 1, elapsed days 3,
remaining days 1 it is 1, not the claimed exact value
actual + dailyAverage × remaining = 1 + 1/3 = 4/3. -/
theorem C4_counterexample :
    (calculatePacing c4State).projected .leads = fin 1 ∧
    (calculatePacing c4State).projected .leads ≠ fin (1 + 1 / 3 * 1) := by
  have h : (calculatePacing c4State).projected .leads = fin 1 := by
    rw [c4State, calculatePacing_mk_projected_rounded c4Tgt c4Act 3 4 1
      (fun _ => 0) (by norm_num) .leads (by decide)]
    norm_num [actTotal, c4Act, roundQ]
  refine ⟨h, ?_⟩
  rw [h]
  intro hc
  exact absurd (JsNum.fin.inj hc) (by norm_num)

/-- C4 amended: on every finite input with positive elapsed and remaining
day counts, the snapshot computes, per metric: progress =
actual/target × 100 when the total target is positive and 0 otherwise;
daily average = actual/elapsed; required daily = max(0,
(target − actual)/remaining); projected spend = actual +
dailyAverage × remaining exactly, while the projected leads, cases and
retainers are `Math.round` of that expression. -/
theorem C4_amended_snapshot_formulas (tgt act : Region → Metric → ℚ)
    (day tot rem : ℕ) (req0 : Metric → JsNum)
    (hday : 0 < day) (hrem : 0 < rem) :
    (∀ m, (calculatePacing (mkState tgt act day tot rem req0)).progress m =
      fin (if 0 < tgtTotal tgt m then actTotal act m / tgtTotal tgt m * 100 else 0)) ∧
    (∀ m, (calculatePacing (mkState tgt act day tot rem req0)).dailyAverage m =
      fin (actTotal act m / (day : ℚ))) ∧
    (∀ m, (calculatePacing (mkState tgt act day tot rem req0)).requiredDaily m =
      fin (Max.max 0 ((tgtTotal tgt m - actTotal act m) / (rem : ℚ)))) ∧
    ((calculatePacing (mkState tgt act day tot rem req0)).projected .spend =
      fin (actTotal act .spend + actTotal act .spend / (day : ℚ) * rem)) ∧
    (∀ m, m ≠ .spend →
      (calculatePacing (mkState tgt act day tot rem req0)).projected m =
        fin (roundQ (actTotal act m + actTotal act m / (day : ℚ) * rem))) := by
  refine ⟨fun m => calculatePacing_mk_progress tgt act day tot rem req0 m,
    fun m => ?_,
    fun m => calculatePacing_mk_requiredDaily_pos tgt act day tot rem req0 hrem m,
    calculatePacing_mk_projected_spend tgt act day tot rem req0 hday,
    fun m hm => calculatePacing_mk_projected_rounded tgt act day tot rem req0 hday m hm⟩
  rw [calculatePacing_mk_dailyAverage, if_pos hday]

/-- Witness for C4 amended at the C2 scenario input (day 10 of 30, 20
remaining). -/
theorem C4_amended_snapshot_formulas_witness :
    (0 : ℕ) < 10 ∧ (0 : ℕ) < 20 ∧
    ((∀ m, (calculatePacing (mkState c2Tgt c2Act 10 30 20 (fun _ => 0))).progress m =
      fin (if 0 < tgtTotal c2Tgt m then actTotal c2Act m / tgtTotal c2Tgt m * 100 else 0)) ∧
    (∀ m, (calculatePacing (mkState c2Tgt c2Act 10 30 20 (fun _ => 0))).dailyAverage m =
      fin (actTotal c2Act m / (10 : ℚ))) ∧
    (∀ m, (calculatePacing (mkState c2Tgt c2Act 10 30 20 (fun _ => 0))).requiredDaily m =
      fin (Max.max 0 ((tgtTotal c2Tgt m - actTotal c2Act m) / (20 : ℚ)))) ∧
    ((calculatePacing (mkState c2Tgt c2Act 10 30 20 (fun _ => 0))).projected .spend =
      fin (actTotal c2Act .spend + actTotal c2Act .spend / (10 : ℚ) * 20)) ∧
    (∀ m, m ≠ .spend →
      (calculatePacing (mkState c2Tgt c2Act 10 30 20 (fun _ => 0))).projected m =
        fin (roundQ (actTotal c2Act m + actTotal c2Act m / (10 : ℚ) * 20)))) :=
  ⟨by norm_num, by norm_num,
    by
      have h := C4_amended_snapshot_formulas c2Tgt c2Act 10 30 20 (fun _ => 0)
        (by norm_num) (by norm_num)
      exact_mod_cast h⟩

@[simp] theorem calculatePacing_settings (s : AppState) :
    (calculatePacing s).settings = s.settings := rfl

@[simp] theorem calculatePacing_conversionRates (s : AppState) :
    (calculatePacing s).conversionRates = s.conversionRates := rfl

@[simp] theorem calculatePacing_totalDaysInMonth (s : AppState) :
    (calculatePacing s).totalDaysInMonth = s.totalDaysInMonth := rfl

/-- Day of the week of `new Date(year, month, day)` as returned by JS
`getDay()` (0 = Sunday … 6 = Saturday), for a 0-based `month` in `0..11`
and a Gregorian `year ≥ 1`, via Zeller's congruence. -/
def jsGetDay (year month day : ℕ) : ℕ :=
  let m := month + 1
  let y := if m ≤ 2 then year - 1 else year
  let mm := if m ≤ 2 then m + 12 else m
  let K := y % 100
  let J := y / 100
  (day + 13 * (mm + 1) / 5 + K + K / 4 + J / 4 + 5 * J + 6) % 7

/-- Source `getWeekdaysInMonth` (lines 945-959): counts the days
`1..totalDaysInMonth` of the current month whose `getDay()` is neither 0
(Sunday) nor 6 (Saturday).  The counting loop is modelled as the
cardinality of the matching set of loop indices. -/
def getWeekdaysInMonth (year month totalDays : ℕ) : ℕ :=
  ((Finset.range totalDays).filter (fun i =>
    jsGetDay year month (i + 1) ≠ 0 ∧ jsGetDay year month (i + 1) ≠ 6)).card

/-- Gregorian leap-year rule (what `new Date` implements). -/
def isLeapYear (year : ℕ) : Bool :=
  year % 4 = 0 && (year % 100 ≠ 0 || year % 400 = 0)

/-- Number of days of the (0-based) `month` of `year`, the value the source
obtains from `new Date(year, month + 1, 0).getDate()`. -/
def daysInMonth (year month : ℕ) : ℕ :=
  if month = 1 then (if isLeapYear year then 29 else 28)
  else if month = 3 ∨ month = 5 ∨ month = 8 ∨ month = 10 then 30
  else 31

/-- Specification-side count: number of Mon–Fri dates of the month
(`getDay` codes 1..5). -/
def weekdayDatesCount (year month : ℕ) : ℕ :=
  ((Finset.range (daysInMonth year month)).filter (fun i =>
    jsGetDay year month (i + 1) ∈ ({1, 2, 3, 4, 5} : Finset ℕ))).card

/-- Specification-side count: number of Sat–Sun dates of the month
(`getDay` codes 0 and 6). -/
def weekendDatesCount (year month : ℕ) : ℕ :=
  ((Finset.range (daysInMonth year month)).filter (fun i =>
    jsGetDay year month (i + 1) ∈ ({0, 6} : Finset ℕ))).card

theorem jsGetDay_lt_seven (year month day : ℕ) : jsGetDay year month day < 7 :=
  Nat.mod_lt _ (by norm_num)

/-- On the month's own day count, the source's weekday count is exactly the
number of Mon–Fri dates. -/
theorem getWeekdaysInMonth_eq_weekdayDates (year month : ℕ) :
    getWeekdaysInMonth year month (daysInMonth year month) =
      weekdayDatesCount year month := by
  unfold getWeekdaysInMonth weekdayDatesCount
  congr 1
  apply Finset.filter_congr
  intro i _
  have h7 := jsGetDay_lt_seven year month (i + 1)
  constructor
  · rintro ⟨h0, h6⟩
    simp only [Finset.mem_insert, Finset.mem_singleton]
    omega
  · intro hmem
    simp only [Finset.mem_insert, Finset.mem_singleton] at hmem
    omega

/-- Weekday dates and weekend dates partition the month. -/
theorem weekdayDates_add_weekendDates (year month : ℕ) :
    weekdayDatesCount year month + weekendDatesCount year month =
      daysInMonth year month := by
  have hcongr :
      (Finset.range (daysInMonth year month)).filter
        (fun i => jsGetDay year month (i + 1) ∈ ({0, 6} : Finset ℕ)) =
      (Finset.range (daysInMonth year month)).filter
        (fun i => ¬ jsGetDay year month (i + 1) ∈ ({1, 2, 3, 4, 5} : Finset ℕ)) := by
    apply Finset.filter_congr
    intro i _
    have h7 := jsGetDay_lt_seven year month (i + 1)
    simp only [Finset.mem_insert, Finset.mem_singleton]
    constructor <;> intro h <;> omega
  have h :
      ((Finset.range (daysInMonth year month)).filter
        (fun i => jsGetDay year month (i + 1) ∈ ({1, 2, 3, 4, 5} : Finset ℕ))).card +
      ((Finset.range (daysInMonth year month)).filter
        (fun i => ¬ jsGetDay year month (i + 1) ∈ ({1, 2, 3, 4, 5} : Finset ℕ))).card =
      (Finset.range (daysInMonth year month)).card :=
    Finset.filter_card_add_filter_neg_card_eq_card _
  unfold weekdayDatesCount weekendDatesCount
  rw [hcongr, h, Finset.card_range]

/-- Update of the settings map at one region/metric cell, modelling the
assignments `this.settings[state][metric].field = …`. -/
def updSetting (f : Region → Metric → MetricTarget) (r : Region) (met : Metric)
    (g : MetricTarget → MetricTarget) : Region → Metric → MetricTarget :=
  fun r2 m2 => if r2 = r ∧ m2 = met then g (f r2 m2) else f r2 m2

/-- Assignment `this.settings[state][metric].monthlyTotal = v`. -/
def setMonthly (s : AppState) (r : Region) (met : Metric) (v : JsNum) : AppState :=
  let f := updSetting s.settings r met (fun t => { t with monthlyTotal := v })
  { s with settings := f }

/-- Source `recalculateDailyTargets(state, metric)` (lines 846-858):
weekday/weekend daily splits recomputed from the monthly total with the
fixed 70/30 allocation, dividing by the weekday/weekend day counts of the
current month (`year`/`month` are the components of `new Date()`). -/
def recalculateDailyTargets (year month : ℕ) (s : AppState) (r : Region)
    (met : Metric) : AppState :=
  let monthlyTotal := (s.settings r met).monthlyTotal
  let weekdays := getWeekdaysInMonth year month s.totalDaysInMonth
  let weekends := s.totalDaysInMonth - weekdays
  let weekdayDaily := JsNum.round (monthlyTotal * (0.7 : JsNum) / fin (weekdays : ℚ))
  let weekendDaily := JsNum.round (monthlyTotal * (0.3 : JsNum) / fin (weekends : ℚ))
  let f := updSetting s.settings r met
    (fun t => { t with weekdayDaily := weekdayDaily, weekendDaily := weekendDaily })
  { s with settings := f }

/-- Source `recalculateTargets(state)` (lines 860-879): recompute cases and
retainers monthly totals of one region from its leads total and the
conversion rates, recompute the daily splits of all four metrics of that
region, then recompute the pacing snapshot. -/
def recalculateTargets (year month : ℕ) (s : AppState) (r : Region) : AppState :=
  let leads := (s.settings r .leads).monthlyTotal
  let s1 := setMonthly s r .cases
    (JsNum.round (leads * (s.conversionRates.leadToCase / 100)))
  let s2 := setMonthly s1 r .retainers
    (JsNum.round (leads * (s.conversionRates.leadToRetainer / 100)))
  let s3 := ([Metric.spend, .leads, .cases, .retainers]).foldl
    (fun acc met => recalculateDailyTargets year month acc r met) s2
  calculatePacing s3

/-- Source `updateCalculations()` (lines 881-897): for every region,
recompute cases and retainers monthly totals from the region's leads total
and the conversion rates, recompute the daily splits for cases and
retainers, then recompute the pacing snapshot. -/
def updateCalculations (year month : ℕ) (s : AppState) : AppState :=
  let s4 := regionList.foldl (fun acc r =>
    let leads := (acc.settings r .leads).monthlyTotal
    let acc1 := setMonthly acc r .cases
      (JsNum.round (leads * (acc.conversionRates.leadToCase / 100)))
    let acc2 := setMonthly acc1 r .retainers
      (JsNum.round (leads * (acc1.conversionRates.leadToRetainer / 100)))
    ([Metric.cases, Metric.retainers]).foldl
      (fun a met => recalculateDailyTargets year month a r met) acc2) s
  calculatePacing s4

theorem recalcDT_weekdayDaily (year month : ℕ) (s : AppState) (r : Region)
    (met : Metric) (htot : s.totalDaysInMonth = daysInMonth year month) :
    ((recalculateDailyTargets year month s r met).settings r met).weekdayDaily =
      JsNum.round ((s.settings r met).monthlyTotal * (0.7 : JsNum) /
        fin (weekdayDatesCount year month : ℚ)) := by
  simp [recalculateDailyTargets, updSetting, htot,
    getWeekdaysInMonth_eq_weekdayDates]

theorem recalcDT_weekendDaily (year month : ℕ) (s : AppState) (r : Region)
    (met : Metric) (htot : s.totalDaysInMonth = daysInMonth year month) :
    ((recalculateDailyTargets year month s r met).settings r met).weekendDaily =
      JsNum.round ((s.settings r met).monthlyTotal * (0.3 : JsNum) /
        fin (weekendDatesCount year month : ℚ)) := by
  have hpart := weekdayDates_add_weekendDates year month
  have he : daysInMonth year month - weekdayDatesCount year month =
      weekendDatesCount year month := by omega
  simp [recalculateDailyTargets, updSetting, htot,
    getWeekdaysInMonth_eq_weekdayDates, he]

theorem recalcDT_weekdayDaily_pos (year month : ℕ) (s : AppState) (r : Region)
    (met : Metric) (M : ℚ) (hM : (s.settings r met).monthlyTotal = fin M)
    (htot : s.totalDaysInMonth = daysInMonth year month)
    (hwpos : 0 < weekdayDatesCount year month) :
    ((recalculateDailyTargets year month s r met).settings r met).weekdayDaily =
      fin (roundQ (M * (7 / 10) / (weekdayDatesCount year month : ℚ))) := by
  have hne : ((weekdayDatesCount year month : ℚ)) ≠ 0 :=
    Nat.cast_ne_zero.mpr hwpos.ne'
  rw [recalcDT_weekdayDaily year month s r met htot, hM]
  norm_num [fin_div_fin _ _ hne]

theorem recalcDT_weekendDaily_pos (year month : ℕ) (s : AppState) (r : Region)
    (met : Metric) (M : ℚ) (hM : (s.settings r met).monthlyTotal = fin M)
    (htot : s.totalDaysInMonth = daysInMonth year month)
    (hepos : 0 < weekendDatesCount year month) :
    ((recalculateDailyTargets year month s r met).settings r met).weekendDaily =
      fin (roundQ (M * (3 / 10) / (weekendDatesCount year month : ℚ))) := by
  have hne : ((weekendDatesCount year month : ℚ)) ≠ 0 :=
    Nat.cast_ne_zero.mpr hepos.ne'
  rw [recalcDT_weekendDaily year month s r met htot, hM]
  norm_num [fin_div_fin _ _ hne]

/-- C6: recomputing daily targets sets weekdayDaily =
round(monthlyTotal × 0.7 / weekdayCount) and weekendDaily =
round(monthlyTotal × 0.3 / weekendCount), where weekdayCount is the number
of Mon–Fri dates and weekendCount the number of Sat–Sun dates of the
current calendar month (the source divides by that count whenever
`totalDaysInMonth` matches the month; the last two conjuncts give the exact
rounded rational values when the counts are positive). -/
theorem C6_recalculateDailyTargets (year month : ℕ) (s : AppState)
    (r : Region) (met : Metric) (M : ℚ)
    (hM : (s.settings r met).monthlyTotal = fin M)
    (htot : s.totalDaysInMonth = daysInMonth year month) :
    (((recalculateDailyTargets year month s r met).settings r met).weekdayDaily =
      JsNum.round (fin M * (0.7 : JsNum) / fin (weekdayDatesCount year month : ℚ))) ∧
    (((recalculateDailyTargets year month s r met).settings r met).weekendDaily =
      JsNum.round (fin M * (0.3 : JsNum) / fin (weekendDatesCount year month : ℚ))) ∧
    (0 < weekdayDatesCount year month →
      ((recalculateDailyTargets year month s r met).settings r met).weekdayDaily =
        fin (roundQ (M * (7 / 10) / (weekdayDatesCount year month : ℚ)))) ∧
    (0 < weekendDatesCount year month →
      ((recalculateDailyTargets year month s r met).settings r met).weekendDaily =
        fin (roundQ (M * (3 / 10) / (weekendDatesCount year month : ℚ)))) := by
  refine ⟨?_, ?_, fun hwpos => ?_, fun hepos => ?_⟩
  · rw [recalcDT_weekdayDaily year month s r met htot, hM]
  · rw [recalcDT_weekendDaily year month s r met htot, hM]
  · exact recalcDT_weekdayDaily_pos year month s r met M hM htot hwpos
  · exact recalcDT_weekendDaily_pos year month s r met M hM htot hepos

/-- Witness for C6: October 2025 (31 days, 23 weekdays, 8 weekend days)
with a monthly leads total of 1000. -/
theorem C6_recalculateDailyTargets_witness :
    weekdayDatesCount 2025 9 = 23 ∧ weekendDatesCount 2025 9 = 8 ∧
    ((recalculateDailyTargets 2025 9 (mkState c2Tgt c2Act 10 31 21 (fun _ => 0))
        .CA .leads).settings .CA .leads).weekdayDaily = fin 30 ∧
    ((recalculateDailyTargets 2025 9 (mkState c2Tgt c2Act 10 31 21 (fun _ => 0))
        .CA .leads).settings .CA .leads).weekendDaily = fin 38 := by
  have hwc : weekdayDatesCount 2025 9 = 23 := by decide
  have hec : weekendDatesCount 2025 9 = 8 := by decide
  obtain ⟨_, _, h3, h4⟩ := C6_recalculateDailyTargets 2025 9
    (mkState c2Tgt c2Act 10 31 21 (fun _ => 0)) .CA .leads 1000 rfl (by decide)
  refine ⟨hwc, hec, ?_, ?_⟩
  · rw [h3 (by rw [hwc]; norm_num), hwc]
    norm_num [roundQ]
  · rw [h4 (by rw [hec]; norm_num), hec]
    norm_num [roundQ]

theorem roundQ_le_bound (x : ℚ) : |(roundQ x : ℚ) - x| ≤ 1 / 2 := by
  rw [abs_le]
  unfold roundQ
  constructor
  · linarith [Int.lt_floor_add_one (x + 1 / 2)]
  · linarith [Int.floor_le (x + 1 / 2)]

theorem roundQ_split_bound (M wc ec : ℚ) (hwc : 0 < wc) (hec : 0 < ec) :
    |(roundQ (M * (7 / 10) / wc) : ℚ) * wc +
      (roundQ (M * (3 / 10) / ec) : ℚ) * ec - M| ≤ wc + ec := by
  have h1 := roundQ_le_bound (M * (7 / 10) / wc)
  have h2 := roundQ_le_bound (M * (3 / 10) / ec)
  have hw1 : |(roundQ (M * (7 / 10) / wc) : ℚ) * wc - M * (7 / 10)| ≤ wc / 2 := by
    have hrw : (roundQ (M * (7 / 10) / wc) : ℚ) * wc - M * (7 / 10) =
        ((roundQ (M * (7 / 10) / wc) : ℚ) - M * (7 / 10) / wc) * wc := by
      field_simp
      ring
    rw [hrw, abs_mul, abs_of_pos hwc]
    nlinarith [abs_nonneg ((roundQ (M * (7 / 10) / wc) : ℚ) - M * (7 / 10) / wc)]
  have hw2 : |(roundQ (M * (3 / 10) / ec) : ℚ) * ec - M * (3 / 10)| ≤ ec / 2 := by
    have hrw : (roundQ (M * (3 / 10) / ec) : ℚ) * ec - M * (3 / 10) =
        ((roundQ (M * (3 / 10) / ec) : ℚ) - M * (3 / 10) / ec) * ec := by
      field_simp
      ring
    rw [hrw, abs_mul, abs_of_pos hec]
    nlinarith [abs_nonneg ((roundQ (M * (3 / 10) / ec) : ℚ) - M * (3 / 10) / ec)]
  have hsplit : (roundQ (M * (7 / 10) / wc) : ℚ) * wc +
      (roundQ (M * (3 / 10) / ec) : ℚ) * ec - M =
      ((roundQ (M * (7 / 10) / wc) : ℚ) * wc - M * (7 / 10)) +
      ((roundQ (M * (3 / 10) / ec) : ℚ) * ec - M * (3 / 10)) := by ring
  calc |(roundQ (M * (7 / 10) / wc) : ℚ) * wc +
      (roundQ (M * (3 / 10) / ec) : ℚ) * ec - M|
      = |((roundQ (M * (7 / 10) / wc) : ℚ) * wc - M * (7 / 10)) +
        ((roundQ (M * (3 / 10) / ec) : ℚ) * ec - M * (3 / 10))| := by rw [hsplit]
    _ ≤ |(roundQ (M * (7 / 10) / wc) : ℚ) * wc - M * (7 / 10)| +
        |(roundQ (M * (3 / 10) / ec) : ℚ) * ec - M * (3 / 10)| := abs_add _ _
    _ ≤ wc / 2 + ec / 2 := add_le_add hw1 hw2
    _ ≤ wc + ec := by linarith

/-- C7: for a non-negative finite monthly total and a month with positive
weekday and weekend counts, the recomputed daily splits satisfy
|weekdayDaily × weekdayCount + weekendDaily × weekendCount − monthlyTotal|
≤ weekdayCount + weekendCount. -/
theorem C7_daily_split_tolerance (year month : ℕ) (s : AppState) (r : Region)
    (met : Metric) (M : ℚ)
    (hM : (s.settings r met).monthlyTotal = fin M) (hM0 : 0 ≤ M)
    (htot : s.totalDaysInMonth = daysInMonth year month)
    (hwpos : 0 < weekdayDatesCount year month)
    (hepos : 0 < weekendDatesCount year month) :
    ∃ w e : ℤ,
      ((recalculateDailyTargets year month s r met).settings r met).weekdayDaily = fin w ∧
      ((recalculateDailyTargets year month s r met).settings r met).weekendDaily = fin e ∧
      |(w : ℚ) * (weekdayDatesCount year month : ℚ) +
        (e : ℚ) * (weekendDatesCount year month : ℚ) - M| ≤
        (weekdayDatesCount year month : ℚ) + (weekendDatesCount year month : ℚ) := by
  refine ⟨roundQ (M * (7 / 10) / (weekdayDatesCount year month : ℚ)),
    roundQ (M * (3 / 10) / (weekendDatesCount year month : ℚ)),
    recalcDT_weekdayDaily_pos year month s r met M hM htot hwpos,
    recalcDT_weekendDaily_pos year month s r met M hM htot hepos,
    roundQ_split_bound M _ _ (by exact_mod_cast hwpos) (by exact_mod_cast hepos)⟩

/-- Witness for C7 at October 2025 with monthly total 1000. -/
theorem C7_daily_split_tolerance_witness :
    (0 : ℚ) ≤ 1000 ∧ 0 < weekdayDatesCount 2025 9 ∧ 0 < weekendDatesCount 2025 9 ∧
    ∃ w e : ℤ,
      ((recalculateDailyTargets 2025 9 (mkState c2Tgt c2Act 10 31 21 (fun _ => 0))
          .CA .leads).settings .CA .leads).weekdayDaily = fin w ∧
      ((recalculateDailyTargets 2025 9 (mkState c2Tgt c2Act 10 31 21 (fun _ => 0))
          .CA .leads).settings .CA .leads).weekendDaily = fin e ∧
      |(w : ℚ) * (weekdayDatesCount 2025 9 : ℚ) +
        (e : ℚ) * (weekendDatesCount 2025 9 : ℚ) - 1000| ≤
        (weekdayDatesCount 2025 9 : ℚ) + (weekendDatesCount 2025 9 : ℚ) :=
  ⟨by norm_num, by decide, by decide,
    C7_daily_split_tolerance 2025 9 (mkState c2Tgt c2Act 10 31 21 (fun _ => 0))
      .CA .leads 1000 rfl (by norm_num) (by decide) (by decide) (by decide)⟩

/-- The cases monthly total written by the conversion-rate operations:
`Math.round(leads * (this.conversionRates.leadToCase / 100))`. -/
def newCasesTotal (s : AppState) (r : Region) : JsNum :=
  JsNum.round ((s.settings r .leads).monthlyTotal * (s.conversionRates.leadToCase / 100))

/-- The retainers monthly total written by the conversion-rate operations. -/
def newRetainersTotal (s : AppState) (r : Region) : JsNum :=
  JsNum.round ((s.settings r .leads).monthlyTotal * (s.conversionRates.leadToRetainer / 100))

theorem updateCalculations_cases_cell (year month : ℕ) (s : AppState) (r : Region) :
    (updateCalculations year month s).settings r .cases =
      ⟨JsNum.round (newCasesTotal s r * (0.7 : JsNum) /
          fin ((getWeekdaysInMonth year month s.totalDaysInMonth : ℕ) : ℚ)),
        JsNum.round (newCasesTotal s r * (0.3 : JsNum) /
          fin ((s.totalDaysInMonth - getWeekdaysInMonth year month s.totalDaysInMonth : ℕ) : ℚ)),
        newCasesTotal s r⟩ := by
  cases r <;>
    simp [updateCalculations, regionList, setMonthly, recalculateDailyTargets,
      updSetting, newCasesTotal]

theorem updateCalculations_retainers_cell (year month : ℕ) (s : AppState) (r : Region) :
    (updateCalculations year month s).settings r .retainers =
      ⟨JsNum.round (newRetainersTotal s r * (0.7 : JsNum) /
          fin ((getWeekdaysInMonth year month s.totalDaysInMonth : ℕ) : ℚ)),
        JsNum.round (newRetainersTotal s r * (0.3 : JsNum) /
          fin ((s.totalDaysInMonth - getWeekdaysInMonth year month s.totalDaysInMonth : ℕ) : ℚ)),
        newRetainersTotal s r⟩ := by
  cases r <;>
    simp [updateCalculations, regionList, setMonthly, recalculateDailyTargets,
      updSetting, newRetainersTotal]

theorem updateCalculations_spend_cell (year month : ℕ) (s : AppState) (r : Region) :
    (updateCalculations year month s).settings r .spend = s.settings r .spend := by
  cases r <;>
    simp [updateCalculations, regionList, setMonthly, recalculateDailyTargets,
      updSetting]

theorem updateCalculations_leads_cell (year month : ℕ) (s : AppState) (r : Region) :
    (updateCalculations year month s).settings r .leads = s.settings r .leads := by
  cases r <;>
    simp [updateCalculations, regionList, setMonthly, recalculateDailyTargets,
      updSetting]

theorem recalculateTargets_cases_cell (year month : ℕ) (s : AppState) (r0 : Region) :
    (recalculateTargets year month s r0).settings r0 .cases =
      ⟨JsNum.round (newCasesTotal s r0 * (0.7 : JsNum) /
          fin ((getWeekdaysInMonth year month s.totalDaysInMonth : ℕ) : ℚ)),
        JsNum.round (newCasesTotal s r0 * (0.3 : JsNum) /
          fin ((s.totalDaysInMonth - getWeekdaysInMonth year month s.totalDaysInMonth : ℕ) : ℚ)),
        newCasesTotal s r0⟩ := by
  simp [recalculateTargets, setMonthly, recalculateDailyTargets, updSetting,
    newCasesTotal]

theorem recalculateTargets_retainers_cell (year month : ℕ) (s : AppState) (r0 : Region) :
    (recalculateTargets year month s r0).settings r0 .retainers =
      ⟨JsNum.round (newRetainersTotal s r0 * (0.7 : JsNum) /
          fin ((getWeekdaysInMonth year month s.totalDaysInMonth : ℕ) : ℚ)),
        JsNum.round (newRetainersTotal s r0 * (0.3 : JsNum) /
          fin ((s.totalDaysInMonth - getWeekdaysInMonth year month s.totalDaysInMonth : ℕ) : ℚ)),
        newRetainersTotal s r0⟩ := by
  simp [recalculateTargets, setMonthly, recalculateDailyTargets, updSetting,
    newRetainersTotal]

theorem recalculateTargets_spend_cell (year month : ℕ) (s : AppState) (r0 : Region) :
    (recalculateTargets year month s r0).settings r0 .spend =
      ⟨JsNum.round ((s.settings r0 .spend).monthlyTotal * (0.7 : JsNum) /
          fin ((getWeekdaysInMonth year month s.totalDaysInMonth : ℕ) : ℚ)),
        JsNum.round ((s.settings r0 .spend).monthlyTotal * (0.3 : JsNum) /
          fin ((s.totalDaysInMonth - getWeekdaysInMonth year month s.totalDaysInMonth : ℕ) : ℚ)),
        (s.settings r0 .spend).monthlyTotal⟩ := by
  simp [recalculateTargets, setMonthly, recalculateDailyTargets, updSetting]

theorem recalculateTargets_leads_cell (year month : ℕ) (s : AppState) (r0 : Region) :
    (recalculateTargets year month s r0).settings r0 .leads =
      ⟨JsNum.round ((s.settings r0 .leads).monthlyTotal * (0.7 : JsNum) /
          fin ((getWeekdaysInMonth year month s.totalDaysInMonth : ℕ) : ℚ)),
        JsNum.round ((s.settings r0 .leads).monthlyTotal * (0.3 : JsNum) /
          fin ((s.totalDaysInMonth - getWeekdaysInMonth year month s.totalDaysInMonth : ℕ) : ℚ)),
        (s.settings r0 .leads).monthlyTotal⟩ := by
  simp [recalculateTargets, setMonthly, recalculateDailyTargets, updSetting]

theorem newCasesTotal_eval (s : AppState) (r : Region) (L rc : ℚ)
    (hL : (s.settings r .leads).monthlyTotal = fin L)
    (hc : s.conversionRates.leadToCase = fin rc) :
    newCasesTotal s r = fin (roundQ (L * (rc / 100))) := by
  rw [newCasesTotal, hL, hc, show (100 : JsNum) = fin 100 from rfl,
    fin_div_fin rc 100 (by norm_num), fin_mul_fin, round_fin]

theorem newRetainersTotal_eval (s : AppState) (r : Region) (L rr : ℚ)
    (hL : (s.settings r .leads).monthlyTotal = fin L)
    (hr : s.conversionRates.leadToRetainer = fin rr) :
    newRetainersTotal s r = fin (roundQ (L * (rr / 100))) := by
  rw [newRetainersTotal, hL, hr, show (100 : JsNum) = fin 100 from rfl,
    fin_div_fin rr 100 (by norm_num), fin_mul_fin, round_fin]

/-- C5: applying the conversion rates (`updateCalculations`, fired when a
rate changes) sets, for every region, cases.monthlyTotal =
round(leads.monthlyTotal × r_case/100) and retainers.monthlyTotal =
round(leads.monthlyTotal × r_retainer/100) exactly, and recomputes the
daily splits of cases and retainers from the new totals while leaving the
spend and leads cells untouched; a single-region edit
(`recalculateTargets`) performs the same monthly-total updates for its
region and recomputes the daily splits of all four metrics there. -/
theorem C5_applyConversionRates (year month : ℕ) (s : AppState)
    (L : Region → ℚ) (rc rr : ℚ)
    (hL : ∀ r, (s.settings r .leads).monthlyTotal = fin (L r))
    (hc : s.conversionRates.leadToCase = fin rc)
    (hr : s.conversionRates.leadToRetainer = fin rr) :
    (∀ r, ((updateCalculations year month s).settings r .cases).monthlyTotal =
      fin (roundQ (L r * (rc / 100)))) ∧
    (∀ r, ((updateCalculations year month s).settings r .retainers).monthlyTotal =
      fin (roundQ (L r * (rr / 100)))) ∧
    (∀ r, (updateCalculations year month s).settings r .cases =
      ⟨JsNum.round (fin (roundQ (L r * (rc / 100))) * (0.7 : JsNum) /
          fin ((getWeekdaysInMonth year month s.totalDaysInMonth : ℕ) : ℚ)),
        JsNum.round (fin (roundQ (L r * (rc / 100))) * (0.3 : JsNum) /
          fin ((s.totalDaysInMonth - getWeekdaysInMonth year month s.totalDaysInMonth : ℕ) : ℚ)),
        fin (roundQ (L r * (rc / 100)))⟩) ∧
    (∀ r, (updateCalculations year month s).settings r .retainers =
      ⟨JsNum.round (fin (roundQ (L r * (rr / 100))) * (0.7 : JsNum) /
          fin ((getWeekdaysInMonth year month s.totalDaysInMonth : ℕ) : ℚ)),
        JsNum.round (fin (roundQ (L r * (rr / 100))) * (0.3 : JsNum) /
          fin ((s.totalDaysInMonth - getWeekdaysInMonth year month s.totalDaysInMonth : ℕ) : ℚ)),
        fin (roundQ (L r * (rr / 100)))⟩) ∧
    (∀ r, (updateCalculations year month s).settings r .spend = s.settings r .spend) ∧
    (∀ r, (updateCalculations year month s).settings r .leads = s.settings r .leads) ∧
    (∀ r0, ((recalculateTargets year month s r0).settings r0 .cases).monthlyTotal =
      fin (roundQ (L r0 * (rc / 100)))) ∧
    (∀ r0, ((recalculateTargets year month s r0).settings r0 .retainers).monthlyTotal =
      fin (roundQ (L r0 * (rr / 100)))) ∧
    (∀ r0, (recalculateTargets year month s r0).settings r0 .spend =
      ⟨JsNum.round ((s.settings r0 .spend).monthlyTotal * (0.7 : JsNum) /
          fin ((getWeekdaysInMonth year month s.totalDaysInMonth : ℕ) : ℚ)),
        JsNum.round ((s.settings r0 .spend).monthlyTotal * (0.3 : JsNum) /
          fin ((s.totalDaysInMonth - getWeekdaysInMonth year month s.totalDaysInMonth : ℕ) : ℚ)),
        (s.settings r0 .spend).monthlyTotal⟩) ∧
    (∀ r0, (recalculateTargets year month s r0).settings r0 .leads =
      ⟨JsNum.round (fin (L r0) * (0.7 : JsNum) /
          fin ((getWeekdaysInMonth year month s.totalDaysInMonth : ℕ) : ℚ)),
        JsNum.round (fin (L r0) * (0.3 : JsNum) /
          fin ((s.totalDaysInMonth - getWeekdaysInMonth year month s.totalDaysInMonth : ℕ) : ℚ)),
        fin (L r0)⟩) := by
  refine ⟨fun r => ?_, fun r => ?_, fun r => ?_, fun r => ?_, fun r => ?_,
    fun r => ?_, fun r0 => ?_, fun r0 => ?_, fun r0 => ?_, fun r0 => ?_⟩
  · rw [updateCalculations_cases_cell, newCasesTotal_eval s r (L r) rc (hL r) hc]
  · rw [updateCalculations_retainers_cell,
      newRetainersTotal_eval s r (L r) rr (hL r) hr]
  · rw [updateCalculations_cases_cell, newCasesTotal_eval s r (L r) rc (hL r) hc]
  · rw [updateCalculations_retainers_cell,
      newRetainersTotal_eval s r (L r) rr (hL r) hr]
  · exact updateCalculations_spend_cell year month s r
  · exact updateCalculations_leads_cell year month s r
  · rw [recalculateTargets_cases_cell,
      newCasesTotal_eval s r0 (L r0) rc (hL r0) hc]
  · rw [recalculateTargets_retainers_cell,
      newRetainersTotal_eval s r0 (L r0) rr (hL r0) hr]
  · exact recalculateTargets_spend_cell year month s r0
  · rw [recalculateTargets_leads_cell, hL r0]

/-- Witness for C5: with leads.monthlyTotal = 1000, a lead-to-case rate of
30 yields cases.monthlyTotal = 300, and the default rate of 22 yields
220. -/
theorem C5_applyConversionRates_witness :
    ((updateCalculations 2025 9
      { mkState c2Tgt c2Act 10 31 21 (fun _ => 0) with
          conversionRates := ⟨fin 30, fin 25⟩ }).settings .CA .cases).monthlyTotal =
      fin 300 ∧
    ((updateCalculations 2025 9
      (mkState c2Tgt c2Act 10 31 21 (fun _ => 0))).settings .CA .cases).monthlyTotal =
      fin 220 := by
  constructor
  · have h := (C5_applyConversionRates 2025 9
      { mkState c2Tgt c2Act 10 31 21 (fun _ => 0) with
          conversionRates := ⟨fin 30, fin 25⟩ }
      (fun r => c2Tgt r .leads) 30 25 (fun r => rfl) rfl rfl).1 .CA
    rw [h]
    norm_num [c2Tgt, roundQ]
  · have h := (C5_applyConversionRates 2025 9
      (mkState c2Tgt c2Act 10 31 21 (fun _ => 0))
      (fun r => c2Tgt r .leads) 22 25 (fun r => rfl) rfl rfl).1 .CA
    rw [h]
    norm_num [c2Tgt, roundQ]

/-- Response of `GET /api/forecast-pacing` as consumed by
`fetchActualData`: the `states` field may be absent (falsy). -/
structure PacingResponse where
  states : Option (Region → ActualPerf)

/-- Response of `GET /api/status`. -/
structure StatusResponse where
  google_ads_connected : Bool
  litify_connected : Bool

/-- The hard-coded demo dataset of the `catch` branch of `fetchActualData`
(lines 997-1002). -/
def demoActualData : Region → ActualPerf
  | .CA => ⟨fin 450000, fin 650, fin 140, fin 160⟩
  | .AZ => ⟨fin 200000, fin 180, fin 40, fin 45⟩
  | .GA => ⟨fin 75000, fin 110, fin 24, fin 28⟩
  | .TX => ⟨fin 0, fin 0, fin 0, fin 0⟩

/-- The check `Object.values(data.states).some(state => state.spend > 0 ||
state.leads > 0 || state.cases > 0 || state.retainers > 0)` (lines
979-981). -/
def hasRealData (st : Region → ActualPerf) : Bool :=
  regionList.any (fun r =>
    (st r).spend.gtb 0 || (st r).leads.gtb 0 ||
    (st r).cases.gtb 0 || (st r).retainers.gtb 0)

/-- The `catch` branch of `fetchActualData` (lines 993-1003): switch to the
demo dataset and label it "Demo Data". -/
def fetchActualDataFail (s : AppState) : AppState :=
  { s with dataSource := "Demo Data", actualData := demoActualData }

/-- Source `fetchActualData` (lines 961-1004) as a function of the two
request outcomes (`none` models a fetch or JSON-parse failure, i.e. a
thrown error reaching the `catch`; a failure of the second request occurs
after the first response was already consumed). -/
def fetchActualData (s : AppState) (pacing : Option PacingResponse)
    (status : Option StatusResponse) : AppState :=
  match pacing with
  | none => fetchActualDataFail s
  | some p =>
    let s1 := match p.states with
      | none => s
      | some st =>
        { s with actualData := st,
                 dataSource := if hasRealData st then "Live Data" else "Demo Data" }
    match status with
    | none => fetchActualDataFail s1
    | some st =>
      if st.google_ads_connected && st.litify_connected then
        { s1 with dataSource := "Live Data" }
      else if st.google_ads_connected || st.litify_connected then
        { s1 with dataSource := "Partial Live Data" }
      else s1

/-- A campaign bucket as consumed by the dashboard summary computation (the
presentation-only fields the summary does not read are omitted). -/
structure Bucket where
  cost : JsNum
  leads : JsNum
  cases : JsNum
  retainers : JsNum
  pendingRetainers : JsNum

/-- Exclusion counts (`excluded_lead_counts`). -/
structure ExcludedCounts where
  spam : JsNum
  abandoned : JsNum
  duplicate : JsNum
  total : JsNum

/-- Body of a successful `/api/dashboard-data` response; `Option` fields
model the `|| default` fallbacks at the consumption sites. -/
structure DashPayload where
  buckets : Option (List Bucket)
  unmappedCampaigns : Option (List String)
  litifyLeads : Option (List String)
  availableBuckets : Option (List String)
  dataSource : Option String
  excludedCounts : Option ExcludedCounts

/-- State of the dashboard Alpine component touched by `fetchData`
(presentation-only fields such as charts and filters are omitted). -/
structure DashState where
  buckets : List Bucket
  unmappedCampaigns : List String
  litifyLeads : List String
  availableBuckets : List String
  dataSource : String
  excludedCounts : ExcludedCounts
  summaryTotalCost : JsNum
  summaryTotalLeads : JsNum
  summaryTotalCases : JsNum
  summaryTotalRetainers : JsNum
  summaryTotalPending : JsNum
  summaryAvgCostPerLead : JsNum
  lastUpdated : String
  isLoading : Bool
  hasError : Bool
  errorMessage : String

/-- Source `fetchData` of the dashboard component in `main.js` (lines
216-267), as a function of the request outcome; `Except.error msg` models a
network failure or non-ok response reaching the `catch` (which throws
`Error('Failed to fetch data')` on a non-ok response).  `nowStr` stands for
`new Date().toLocaleTimeString()`. -/
def dashboardFetchData (s : DashState) (nowStr : String)
    (resp : Except String DashPayload) : DashState :=
  let s0 := { s with isLoading := s.buckets.isEmpty, hasError := false }
  match resp with
  | .error msg =>
    { s0 with errorMessage := msg, hasError := true, isLoading := false }
  | .ok d =>
    let buckets := d.buckets.getD []
    let totalCost := buckets.foldl (fun sum b => sum + JsNum.orZero b.cost) 0
    let totalLeads := buckets.foldl (fun sum b => sum + JsNum.orZero b.leads) 0
    let totalCases := buckets.foldl (fun sum b => sum + JsNum.orZero b.cases) 0
    let totalRetainers :=
      buckets.foldl (fun sum b => sum + JsNum.orZero b.retainers) 0
    let totalPending :=
      buckets.foldl (fun sum b => sum + JsNum.orZero b.pendingRetainers) 0
    let avgCPL := if totalLeads.gtb 0 then totalCost / totalLeads else 0
    { s0 with
      buckets := buckets
      unmappedCampaigns := d.unmappedCampaigns.getD []
      litifyLeads := d.litifyLeads.getD []
      availableBuckets := d.availableBuckets.getD []
      dataSource :=
        match d.dataSource with
        | none => "Demo Data"
        | some str => if str = "" then "Demo Data" else str
      excludedCounts := d.excludedCounts.getD ⟨0, 0, 0, 0⟩
      summaryTotalCost := totalCost
      summaryTotalLeads := totalLeads
      summaryTotalCases := totalCases
      summaryTotalRetainers := totalRetainers
      summaryTotalPending := totalPending
      summaryAvgCostPerLead := avgCPL
      lastUpdated := nowStr
      isLoading := false }

/-- The DOM flags touched by the jQuery `fetchData` handlers of
`dashboard.js`. -/
structure DashUi where
  errorMessageText : String
  loadingVisible : Bool
  errorVisible : Bool
  contentVisible : Bool
  isLoading : Bool
  isRefreshing : Bool

/-- The `error` (+ `complete`) callbacks of the jQuery `fetchData` of
`dashboard.js` (lines 299-320): show the error panel with the server's
error message when one can be parsed, a generic message otherwise. -/
def dashboardJsOnError (responseError : Option String) (ui : DashUi) : DashUi :=
  { ui with
    errorMessageText :=
      responseError.getD "Failed to load dashboard data. Please try again."
    loadingVisible := false
    errorVisible := true
    isLoading := false
    isRefreshing := false }

/-- C9 amended: every fetch failure is caught locally and yields a defined
next state — the forecasting page's `fetchActualData` degrades to the fixed
demo dataset labeled "Demo Data" on any failure, while the two dashboard
fetch handlers instead record/display an error state and keep the
previously loaded data (they do not fall back to demo data). -/
theorem C9_amended_fetch_failure_handling :
    (∀ (s : AppState) (status : Option StatusResponse),
      fetchActualData s none status =
        { s with dataSource := "Demo Data", actualData := demoActualData }) ∧
    (∀ (s : AppState) (p : PacingResponse),
      (fetchActualData s (some p) none).dataSource = "Demo Data" ∧
      (fetchActualData s (some p) none).actualData = demoActualData) ∧
    (∀ (ds : DashState) (nowStr msg : String),
      (dashboardFetchData ds nowStr (.error msg)).hasError = true ∧
      (dashboardFetchData ds nowStr (.error msg)).errorMessage = msg ∧
      (dashboardFetchData ds nowStr (.error msg)).isLoading = false ∧
      (dashboardFetchData ds nowStr (.error msg)).dataSource = ds.dataSource ∧
      (dashboardFetchData ds nowStr (.error msg)).buckets = ds.buckets) ∧
    (∀ (e : Option String) (ui : DashUi),
      (dashboardJsOnError e ui).errorVisible = true ∧
      (dashboardJsOnError e ui).loadingVisible = false) := by
  refine ⟨fun s status => rfl, fun s p => ?_, fun ds nowStr msg => ?_,
    fun e ui => ⟨rfl, rfl⟩⟩
  · cases hp : p.states <;> exact ⟨rfl, rfl⟩
  · exact ⟨rfl, rfl, rfl, rfl, rfl⟩

/-- A dashboard state currently showing live data. -/
def c9DashState : DashState where
  buckets := [⟨fin 100, fin 2, fin 1, fin 1, fin 0⟩]
  unmappedCampaigns := []
  litifyLeads := []
  availableBuckets := []
  dataSource := "Live Data"
  excludedCounts := ⟨0, 0, 0, 0⟩
  summaryTotalCost := fin 100
  summaryTotalLeads := fin 2
  summaryTotalCases := fin 1
  summaryTotalRetainers := fin 1
  summaryTotalPending := fin 0
  summaryAvgCostPerLead := fin 50
  lastUpdated := ""
  isLoading := false
  hasError := false
  errorMessage := ""

/-- C9 counterexample: a failed dashboard fetch does not degrade to a demo
dataset labeled "Demo Data" — the handler sets an error flag and message
and leaves the data source (here "Live Data") and buckets untouched. -/
theorem C9_counterexample :
    (dashboardFetchData c9DashState "12:00"
      (Except.error "Failed to fetch data")).hasError = true ∧
    (dashboardFetchData c9DashState "12:00"
      (Except.error "Failed to fetch data")).dataSource = "Live Data" ∧
    (dashboardFetchData c9DashState "12:00"
      (Except.error "Failed to fetch data")).dataSource ≠ "Demo Data" := by
  refine ⟨rfl, rfl, ?_⟩
  intro h
  simp [dashboardFetchData, c9DashState] at h

/-- The fixed (non-numeric) insight message templates of
`generateInsights`; every message except the cost-per-lead one is one of
these. -/
def fixedInsightMessages : List String :=
  ["Spend is projected to exceed target by more than 10%",
   "Spend is projected to fall short of target by more than 10%",
   "Lead generation is significantly outperforming targets",
   "Lead generation needs acceleration to meet targets",
   "CA spend pacing needs attention",
   "AZ spend pacing needs attention",
   "GA spend pacing needs attention"]

/-- C10 amended: in every state with zero total actual leads and
non-negative total actual spend, the unguarded cost-per-lead division
yields `NaN` (zero spend) or `Infinity` (positive spend), the JS comparison
`currentCPL < targetCPL * 0.9` is false for every target CPL, so the
cost-per-lead insight is not emitted and every emitted insight is one of
the fixed message templates (none is derived from the `NaN`/`Infinity`
value).  With negative total actual spend the division yields `-Infinity`
and the guard can pass, so the non-negativity hypothesis is necessary. -/
theorem C10_amended_cpl_insight_suppressed (s : AppState) (q : ℚ)
    (hl : s.totalActual .leads = fin 0)
    (hs : s.totalActual .spend = fin q) (h0 : 0 ≤ q) :
    (s.totalActual .spend / s.totalActual .leads = nan ∨
     s.totalActual .spend / s.totalActual .leads = posInf) ∧
    ((s.totalActual .spend / s.totalActual .leads).ltb
      (s.totalTarget .spend / s.totalTarget .leads * (0.9 : JsNum)) = false) ∧
    (∀ msg ∈ generateInsights s, msg ∈ fixedInsightMessages) := by
  have hdiv : s.totalActual .spend / s.totalActual .leads = nan ∨
      s.totalActual .spend / s.totalActual .leads = posInf := by
    rw [hl, hs, fin_div_zero]
    rcases eq_or_lt_of_le h0 with h | h
    · left
      simp [← h]
    · right
      simp [h.ne', h]
  have hlt : (s.totalActual .spend / s.totalActual .leads).ltb
      (s.totalTarget .spend / s.totalTarget .leads * (0.9 : JsNum)) = false := by
    rcases hdiv with h | h <;> rw [h] <;> simp
  refine ⟨hdiv, hlt, fun msg hmsg => ?_⟩
  simp only [generateInsights, hlt, Bool.false_eq_true, if_false,
    List.foldl_cons, List.foldl_nil, List.nil_append, List.append_nil,
    List.mem_append, Region.code] at hmsg
  simp only [fixedInsightMessages, List.mem_cons, List.mem_singleton,
    List.not_mem_nil]
  rcases hmsg with (h | h) | h
  · split_ifs at h <;> simp at h <;> tauto
  · split_ifs at h <;> simp at h <;> tauto
  · split_ifs at h <;> simp at h <;> tauto

/-- A state whose computed totals have zero actual leads and zero actual
spend (used by the C10 witness). -/
def c10WitnessState : AppState :=
  { mkState c2Tgt zeroF 10 30 20 (fun _ => 0) with totalActual := fun _ => fin 0 }

/-- Witness for C10 amended: zero actual spend and leads. -/
theorem C10_amended_cpl_insight_suppressed_witness :
    c10WitnessState.totalActual .leads = fin 0 ∧
    c10WitnessState.totalActual .spend = fin 0 ∧ (0 : ℚ) ≤ 0 ∧
    ((c10WitnessState.totalActual .spend / c10WitnessState.totalActual .leads = nan ∨
      c10WitnessState.totalActual .spend / c10WitnessState.totalActual .leads = posInf) ∧
    ((c10WitnessState.totalActual .spend / c10WitnessState.totalActual .leads).ltb
      (c10WitnessState.totalTarget .spend / c10WitnessState.totalTarget .leads *
        (0.9 : JsNum)) = false) ∧
    (∀ msg ∈ generateInsights c10WitnessState, msg ∈ fixedInsightMessages)) :=
  ⟨rfl, rfl, le_refl 0,
    C10_amended_cpl_insight_suppressed c10WitnessState 0 rfl rfl (le_refl 0)⟩

/-- Targets for the C10 counterexample: CA spend 1000, CA leads 10. -/
def c10Tgt : Region → Metric → ℚ
  | .CA, .spend => 1000
  | .CA, .leads => 10
  | _, _ => 0

/-- Actuals for the C10 counterexample: CA spend −100, no leads at all. -/
def c10Act : Region → Metric → ℚ
  | .CA, .spend => -100
  | _, _ => 0

/-- The C10 counterexample state. -/
def c10State : AppState :=
  mkState c10Tgt c10Act 10 30 20 (fun _ => 0)

/-- C10 counterexample: with zero total actual leads but negative total
actual spend, the unguarded division yields `-Infinity`, the comparison
`-Infinity < targetCPL * 0.9` is true, and the insights list does contain
the `-Infinity`-derived cost-per-lead message. -/
theorem C10_counterexample :
    "Cost per lead ($-Infinity) is better than target" ∈
      (calculatePacing c10State).insights := by
  simp [calculatePacing, calculatePacingCore, generateInsights, c10State,
    mkState, c10Tgt, c10Act, sumTargets, sumActuals, regionList,
    ActualPerf.get, getStateProgress, getStateTarget, getStateActual,
    fin_div_fin, fin_div_zero, JsNum.max, JsNum.abs, JsNum.ltb, JsNum.gtb,
    JsNum.toFixed0, Region.code, roundQ]
  norm_num
  right
  right
  left
  decide
